import Mathlib

/-!
Shallow embedding of the OTA update system (ota_mechanism/ota_updater.py)
and proofs about its specified behaviour.

Conventions of the embedding:
- Python exceptions that escape a function are modelled with `Except`:
  a `.error` value is an uncaught exception crossing the function boundary,
  a caught exception is folded into the boolean result, exactly as the
  try/except structure of the source dictates.
- Network and filesystem effects are modelled by explicit inputs (the
  remote tree with per-file download outcomes, the listing of the backup
  directory) and explicit outputs (records emitted, actions performed,
  directories created or replaced).
- Machine integers are `Int`; Python version components are parsed with
  the semantics of `int(str)` (optional surrounding whitespace, optional
  sign, a nonempty digit run; the underscore digit separator accepted by
  Python is irrelevant to every version string considered here and is
  not modelled).
-/

deriving instance DecidableEq for Except

/-! ## Python string and integer primitives -/

/-- Characters treated as whitespace by `str.strip()` (ASCII subset). -/
def isPySpace (c : Char) : Bool :=
  c = ' ' || c = '\t' || c = '\n' || c = '\r' || c = '\x0b' || c = '\x0c'

/-- Python `s.strip()` on a character list. -/
def pyStrip (l : List Char) : List Char :=
  ((l.dropWhile isPySpace).reverse.dropWhile isPySpace).reverse

/-- Python `s.split(sep)` for a one-character separator, on a character
list: the empty string yields one empty field, and every separator
occurrence opens a new field. -/
def splitOnChar (sep : Char) : List Char → List (List Char)
  | [] => [[]]
  | c :: rest =>
    let r := splitOnChar sep rest
    if c = sep then [] :: r
    else
      match r with
      | [] => [[c]]
      | h :: t => (c :: h) :: t

/-- Value of a nonempty run of decimal digits; `none` if the run is empty
or holds a non-digit. -/
def digitsToNat (l : List Char) : Option Nat :=
  if l.isEmpty then none
  else if l.all Char.isDigit then
    some (l.foldl (fun acc c => 10 * acc + (c.toNat - 48)) 0)
  else none

/-- Python `int(str)`: strip whitespace, optional sign, digits.
`none` models the `ValueError` raised on any other shape. -/
def parsePyInt (l : List Char) : Option Int :=
  match pyStrip l with
  | '+' :: rest => (digitsToNat rest).map Int.ofNat
  | '-' :: rest => (digitsToNat rest).map (fun n => -(n : Int))
  | m => (digitsToNat m).map Int.ofNat

/-- The list comprehension `[int(x) for x in v.split(".")]` of
`check_for_updates` on a character list; `none` models the `ValueError`
it raises on a non-integer component. -/
def parsePartsChars (l : List Char) : Option (List Int) :=
  (splitOnChar '.' l).mapM parsePyInt

/-- Same on a string. -/
def parseParts (s : String) : Option (List Int) :=
  parsePartsChars s.toList

/-! ## Version data and the comparison of check_for_updates
(ota_updater.py lines 237-269) -/

/-- Content of a version.json document as far as the updater reads it:
the `version` field may be missing (`dict.get` with default). -/
structure VersionInfo where
  version : Option String
deriving DecidableEq, Repr

/-- `d.get("version", "0.0.0")` of the source. -/
def getVersionField (v : VersionInfo) : String :=
  v.version.getD "0.0.0"

/-- Body of the comparison loop of `check_for_updates` (lines 260-268),
at index `i` with `fuel` iterations left: a missing index reads as 0
(lines 261-262), the first strict inequality decides (lines 264-267). -/
def cmpIdx (cp lp : List Int) (i : Nat) : Nat → Bool
  | 0 => false
  | fuel + 1 =>
    let curr := cp.getD i 0
    let latest := lp.getD i 0
    if latest > curr then true
    else if curr > latest then false
    else cmpIdx cp lp (i + 1) fuel

/-- The whole loop `for i in range(max(len(current_parts), len(latest_parts)))`
of lines 260-269; falling off the loop returns `false` (line 269). -/
def cmpParts (cp lp : List Int) : Bool :=
  cmpIdx cp lp 0 (max cp.length lp.length)

/-- The pair of components compared at index `i`, missing entries read
as 0 (the padding the spec describes). -/
def specPair (cp lp : List Int) (i : Nat) : Int × Int :=
  (cp.getD i 0, lp.getD i 0)

/-- First differing pair decides (latest strictly greater means update
available); no differing pair means no update. Spec wording. -/
def firstDiffDecides : List (Int × Int) → Bool
  | [] => false
  | (c, l) :: rest => if c = l then firstDiffDecides rest else decide (c < l)

/-- Comparison as worded by the spec: compare component-wise left to
right up to the longer length, padding missing components with 0; the
first differing component decides; equal in all compared components
means no update. -/
def specUpdateAvailable (cp lp : List Int) : Bool :=
  firstDiffDecides ((List.range (max cp.length lp.length)).map (specPair cp lp))

/-- `check_for_updates` (lines 237-269). The source has no try/except:
the `ValueError` from `int` on a malformed component escapes, modelled
by `.error`. Order of the two guards follows the source: absent latest
returns `false` first, then absent current returns `true`. -/
def check_for_updates (current latest : Option VersionInfo) : Except String Bool :=
  match latest with
  | none => .ok false
  | some lv =>
    match current with
    | none => .ok true
    | some cv =>
      match parseParts (getVersionField cv), parseParts (getVersionField lv) with
      | some cp, some lp => .ok (cmpParts cp lp)
      | _, _ => .error "ValueError"

/-! ## Remote tree and the artifact fetch
(ota_updater.py lines 105-136, 182-235) -/

/-- A node of the remote directory tree as the GitHub contents API
presents it: entries tagged file or dir with a path. A file node carries
the outcome its download would have (`ok = false` means
`_download_file` fails for it). -/
inductive RTree where
  | file (path : String) (ok : Bool)
  | dir (path : String) (children : List RTree)

/-- `_list_directory_contents` (lines 124-136): a failed request is
caught and yields `[]`, indistinguishable from a genuinely empty
directory. The input `none` models the request raising. -/
def _list_directory_contents : Option (List RTree) → List RTree
  | none => []
  | some l => l

/-- Some file download in the forest fails. -/
def hasFailedFileList : List RTree → Bool
  | [] => false
  | .file _ ok :: rest => !ok || hasFailedFileList rest
  | .dir _ ch :: rest => hasFailedFileList ch || hasFailedFileList rest
termination_by l => sizeOf l
decreasing_by all_goals (simp_wf; try omega)

/-- Loop body of `_download_directory` (lines 219-235) over a listing:
a failed file download returns `false` at once, but the boolean result
of the recursive call on a subdirectory is DISCARDED by the source
(line 231), exactly as embedded here. -/
def downloadDirList : List RTree → Bool
  | [] => true
  | .file _ ok :: rest => if ok then downloadDirList rest else false
  | .dir _ ch :: rest =>
    let _ignored := downloadDirList ch
    downloadDirList rest
termination_by l => sizeOf l
decreasing_by all_goals (simp_wf; try omega)

/-- Top-level loop of `download_update` (lines 197-206): a failed file
download at top level returns `false`; for a subdirectory the source
calls `_download_directory` and discards its result (line 206). -/
def downloadTop : List RTree → Bool
  | [] => true
  | .file _ ok :: rest => if ok then downloadTop rest else false
  | .dir _ ch :: rest =>
    let _ignored := downloadDirList ch
    downloadTop rest
termination_by l => sizeOf l
decreasing_by all_goals (simp_wf; try omega)

/-- Observable outcome of `download_update`: the boolean returned,
whether the staging directory was created, and whether the app
directory was removed and replaced by the staged artifact. -/
structure FetchResult where
  ok : Bool
  stagingCreated : Bool
  appReplaced : Bool
deriving DecidableEq, Repr

/-- `download_update` (lines 182-217) given the outcome of the top-level
listing request. An empty listing returns `false` before the staging
directory is created (line 187); otherwise staging is created, the
top-level loop runs, and on a `true` result the app directory is
removed and the staging directory moved into its place (lines 209-211). -/
def download_update (listing : Option (List RTree)) : FetchResult :=
  let contents := _list_directory_contents listing
  match contents with
  | [] => ⟨false, false, false⟩
  | _ =>
    let r := downloadTop contents
    if r then ⟨true, true, true⟩ else ⟨false, true, false⟩

/-! ## Backup directory and restore
(ota_updater.py lines 138-180) -/

/-- An entry of the backup directory as `os.listdir` reports it, with
its creation time. Note the staging directory `temp_download` of
`download_update` lives inside this same directory (line 191). -/
structure DirEntry where
  name : String
  ctime : Nat
deriving DecidableEq, Repr

/-- Python `max(entries, key=os.path.getctime)`: the first entry of
maximal ctime (a later candidate replaces the current one only when
strictly greater). -/
def pyMaxByCtime (b : DirEntry) : List DirEntry → DirEntry
  | [] => b
  | c :: cs => pyMaxByCtime (if c.ctime > b.ctime then c else b) cs

/-- Observable outcome of `restore_from_backup`: the boolean returned
and the directory copied into the app path (`none` = the app directory
was neither removed nor overwritten). -/
structure RestoreResult where
  ok : Bool
  copied : Option String
deriving DecidableEq, Repr

/-- `restore_from_backup` (lines 159-180). With no argument it lists
the WHOLE backup directory, returns `false` on an empty listing before
touching anything, and otherwise removes the app directory and copies
in the entry of latest creation time. Filesystem copy and removal are
modelled as succeeding. -/
def restore_from_backup (entries : List DirEntry) (backupDir : Option String) : RestoreResult :=
  match backupDir with
  | some d => ⟨true, some d⟩
  | none =>
    match entries with
    | [] => ⟨false, none⟩
    | e :: es => ⟨true, some (pyMaxByCtime e es).name⟩

/-- Name shape `{version}_{timestamp}` of a snapshot produced by
`backup_current_application` (line 149): a dotted-integer version, an
underscore, and a 14-digit timestamp. -/
def isBackupSnapshotName (s : String) : Bool :=
  match splitOnChar '_' s.toList with
  | [v, t] => (parsePartsChars v).isSome && t.length == 14 && t.all Char.isDigit
  | _ => false

/-! ## The update cycle
(ota_updater.py lines 364-441) -/

/-- An UpdateRecord as `log_update_to_db` emits it, narrowed to the
fields the spec tracks: target version, status, and the `stage` and
`action` keys of the details dictionary. -/
structure UpdateRecord where
  version : String
  status : String
  stage : Option String
  action : Option String
deriving DecidableEq, Repr

/-- Externally visible operations performed by the cycle, in order.
`restoreBackup` stands for `restore_from_backup()` with no argument. -/
inductive OrchAction where
  | backupApp
  | stopApp
  | downloadApp
  | restoreBackup
  | startApp
  | healthProbe
deriving DecidableEq, Repr

/-- Inputs of one run of `update_if_available`: the two version
documents and the outcome each fallible step would have. Results of
the rollback calls (`restore_from_backup`, the restart) are discarded
by the source, so they need no oracle. -/
structure OrchEnv where
  current : Option VersionInfo
  latest : Option VersionInfo
  backupOk : Bool
  downloadOk : Bool
  startOk : Bool
  healthOk : Bool
deriving DecidableEq, Repr

/-- Observable outcome of one run of `update_if_available`. -/
structure CycleResult where
  ok : Bool
  records : List UpdateRecord
  actions : List OrchAction
deriving DecidableEq, Repr

/-- The `latest_v` string of lines 374-376. -/
def latestVersionString (env : OrchEnv) : String :=
  match env.latest with
  | some lv => getVersionField lv
  | none => "0.0.0"

/-- `update_if_available` (lines 364-441), sequencing check, started
record, backup, stop, download, start, health probe, with the exact
early-return, record and rollback sequence of the source. An uncaught
exception from `check_for_updates` propagates (line 366 has no
try/except). -/
def update_if_available (env : OrchEnv) : Except String CycleResult :=
  match check_for_updates env.current env.latest with
  | .error e => .error e
  | .ok false => .ok ⟨false, [], []⟩
  | .ok true =>
    let v := latestVersionString env
    let started : UpdateRecord := ⟨v, "started", none, none⟩
    if !env.backupOk then
      .ok ⟨false, [started, ⟨v, "failed", some "backup", none⟩],
        [.backupApp]⟩
    else if !env.downloadOk then
      .ok ⟨false, [started, ⟨v, "failed", some "download", some "rolled_back"⟩],
        [.backupApp, .stopApp, .downloadApp, .restoreBackup, .startApp]⟩
    else if !env.startOk then
      .ok ⟨false, [started, ⟨v, "failed", some "startup", some "rolled_back"⟩],
        [.backupApp, .stopApp, .downloadApp, .startApp, .restoreBackup, .startApp]⟩
    else if !env.healthOk then
      .ok ⟨false, [started, ⟨v, "failed", some "health_check", some "rolled_back"⟩],
        [.backupApp, .stopApp, .downloadApp, .startApp, .healthProbe,
         .stopApp, .restoreBackup, .startApp]⟩
    else
      .ok ⟨true, [started, ⟨v, "completed", none, none⟩],
        [.backupApp, .stopApp, .downloadApp, .startApp, .healthProbe]⟩

/-- Predicate of C3: a failed record with stage health_check and action
rolled_back. -/
def isHealthRollbackRecord (r : UpdateRecord) : Bool :=
  r.status == "failed" && r.stage == some "health_check" && r.action == some "rolled_back"

/-! ## The continuous scheduling loop
(ota_updater.py lines 443-481) -/

/-- Python exceptions as the loop distinguishes them: `Exception`
subclasses (caught by `except Exception`) versus `KeyboardInterrupt`
(not an `Exception`, escapes the per-iteration handler). -/
inductive PyExc where
  | exception (msg : String)
  | keyboardInterrupt
deriving DecidableEq, Repr

/-- One iteration of the `while True` loop (lines 454-475): the body
(self-heal health check then `update_if_available`) runs inside
`try/except Exception`, and `time.sleep` follows OUTSIDE the handler.
Input: how the body ends. Output `.ok true`: the iteration completed
and the sleep executed (an `Exception` having been caught and logged);
`.error`: the exception escapes the iteration. -/
def loopIteration : Except PyExc Unit → Except PyExc Bool
  | .ok () => .ok true
  | .error (.exception _) => .ok true
  | .error .keyboardInterrupt => .error .keyboardInterrupt

/-- The loop reaches iteration `n`, given per-iteration body outcomes:
it proceeds from iteration `k` to `k + 1` exactly when `loopIteration`
completes at `k`. -/
def loopRuns (schedule : Nat → Except PyExc Unit) : Nat → Bool
  | 0 => true
  | n + 1 =>
    loopRuns schedule n &&
      match loopIteration (schedule n) with
      | .ok _ => true
      | .error _ => false

/-! ## Helper lemmas -/

/-- Unfolding of `firstDiffDecides` on a cons cell. -/
theorem firstDiffDecides_cons (c l : Int) (rest : List (Int × Int)) :
    firstDiffDecides ((c, l) :: rest)
      = if c = l then firstDiffDecides rest else decide (c < l) := rfl

/-- The indexed comparison loop computes the first-differing-component
rule of the spec over the remaining indices. -/
theorem cmpIdx_eq_firstDiff (cp lp : List Int) :
    ∀ fuel i : Nat,
      cmpIdx cp lp i fuel
        = firstDiffDecides ((List.range fuel).map (fun k => specPair cp lp (i + k))) := by
  intro fuel
  induction fuel with
  | zero => intro i; rfl
  | succ n ih =>
    intro i
    rw [List.range_succ_eq_map, List.map_cons, List.map_map]
    have hcomp : ((fun k => specPair cp lp (i + k)) ∘ Nat.succ)
        = fun k => specPair cp lp (i + 1 + k) := by
      funext k
      have hn : i + Nat.succ k = i + 1 + k := by omega
      simp [Function.comp, hn]
    rw [hcomp]
    have hhead : specPair cp lp (i + 0) = (cp.getD i 0, lp.getD i 0) := by
      simp [specPair]
    rw [hhead, firstDiffDecides_cons, ← ih (i + 1)]
    show (if lp.getD i 0 > cp.getD i 0 then true
          else if cp.getD i 0 > lp.getD i 0 then false
          else cmpIdx cp lp (i + 1) n)
        = if cp.getD i 0 = lp.getD i 0 then cmpIdx cp lp (i + 1) n
          else decide (cp.getD i 0 < lp.getD i 0)
    rcases lt_trichotomy (cp.getD i 0) (lp.getD i 0) with h | h | h
    · rw [if_pos h, if_neg (ne_of_lt h)]
      exact (decide_eq_true h).symm
    · rw [h]
      simp
    · rw [if_neg (not_lt_of_gt h), if_pos h, if_neg (ne_of_gt h)]
      exact (decide_eq_false (not_lt.mpr (le_of_lt h))).symm

/-- The comparison loop of the source equals the comparison the spec
words describe. -/
theorem cmpParts_eq_spec (cp lp : List Int) :
    cmpParts cp lp = specUpdateAvailable cp lp := by
  unfold cmpParts specUpdateAvailable
  rw [cmpIdx_eq_firstDiff]
  have h : (fun k => specPair cp lp (0 + k)) = specPair cp lp := by
    funext k
    simp
  rw [h]

/-- The comparison loop on equal component lists never fires. -/
theorem cmpIdx_self (p : List Int) : ∀ fuel i, cmpIdx p p i fuel = false := by
  intro fuel
  induction fuel with
  | zero => intro i; rfl
  | succ n ih => intro i; simp [cmpIdx, lt_irrefl, ih]

/-- Equal component lists compare as no update. -/
theorem cmpParts_self (p : List Int) : cmpParts p p = false :=
  cmpIdx_self p _ 0

/-! ## Claim theorems -/

/-- C1: the update-availability check returns true when the current
version descriptor is absent and the latest is present, returns false
when the latest is absent, and otherwise compares the two dotted
version strings component-wise left to right up to the longer length
with missing trailing components treated as 0, the first differing
component deciding (latest greater means update available) and equality
in all compared components yielding false. -/
theorem c1_check_for_updates_semantics :
    (∀ c : Option VersionInfo, check_for_updates c none = .ok false) ∧
    (∀ lv : VersionInfo, check_for_updates none (some lv) = .ok true) ∧
    (∀ (cv lv : VersionInfo) (cp lp : List Int),
      parseParts (getVersionField cv) = some cp →
      parseParts (getVersionField lv) = some lp →
      check_for_updates (some cv) (some lv) = .ok (specUpdateAvailable cp lp)) := by
  refine ⟨fun c => rfl, fun lv => rfl, fun cv lv cp lp hc hl => ?_⟩
  show (match parseParts (getVersionField cv), parseParts (getVersionField lv) with
    | some cp, some lp => Except.ok (cmpParts cp lp)
    | _, _ => Except.error "ValueError") = Except.ok (specUpdateAvailable cp lp)
  rw [hc, hl]
  show Except.ok (cmpParts cp lp) = Except.ok (specUpdateAvailable cp lp)
  rw [cmpParts_eq_spec]

/-- Witness for C1 at current 1.2.3, latest 1.2.4. -/
theorem c1_check_for_updates_semantics_witness :
    check_for_updates (some ⟨some "1.2.3"⟩) (some ⟨some "1.2.4"⟩)
      = .ok (specUpdateAvailable [1, 2, 3] [1, 2, 4]) :=
  c1_check_for_updates_semantics.2.2 ⟨some "1.2.3"⟩ ⟨some "1.2.4"⟩
    [1, 2, 3] [1, 2, 4] (by decide) (by decide)

/-- C2 evaluation at the failing input: a download failure inside a
subdirectory is ignored, `download_update` reports success and removes
and replaces the app directory with the partially downloaded artifact;
the abort logic only works for a failure at top level. -/
theorem c2_subdir_failure_deploys_partial_artifact :
    hasFailedFileList
      [.dir "application/sub" [.file "application/sub/a.py" false]] = true ∧
    download_update
      (some [.dir "application/sub" [.file "application/sub/a.py" false]])
      = ⟨true, true, true⟩ ∧
    download_update (some [.file "application/a.py" false]) = ⟨false, true, false⟩ := by
  refine ⟨?_, ?_, ?_⟩ <;>
    simp [hasFailedFileList, download_update, _list_directory_contents,
      downloadTop, downloadDirList]

/-- C3: when an update is available and backup, stop, download and start
succeed but the single health probe fails, the cycle stops the new app,
restores the last backup, restarts, returns failure, and the records
emitted for the cycle hold exactly one failed record with stage
health_check and action rolled_back. -/
theorem c3_health_failure_rolls_back (env : OrchEnv)
    (hav : check_for_updates env.current env.latest = .ok true)
    (hb : env.backupOk = true) (hd : env.downloadOk = true)
    (hs : env.startOk = true) (hh : env.healthOk = false) :
    update_if_available env = .ok ⟨false,
      [⟨latestVersionString env, "started", none, none⟩,
       ⟨latestVersionString env, "failed", some "health_check", some "rolled_back"⟩],
      [.backupApp, .stopApp, .downloadApp, .startApp, .healthProbe,
       .stopApp, .restoreBackup, .startApp]⟩ ∧
    List.countP isHealthRollbackRecord
      [⟨latestVersionString env, "started", none, none⟩,
       ⟨latestVersionString env, "failed", some "health_check", some "rolled_back"⟩] = 1 := by
  constructor
  · unfold update_if_available
    rw [hav]
    simp [hb, hd, hs, hh]
  · simp [List.countP, List.countP.go, isHealthRollbackRecord]

/-- Witness for C3: versions 1.0.0 and 1.1.0, all steps succeed except
the health probe. -/
theorem c3_health_failure_rolls_back_witness :
    update_if_available ⟨some ⟨some "1.0.0"⟩, some ⟨some "1.1.0"⟩, true, true, true, false⟩
      = .ok ⟨false,
        [⟨latestVersionString ⟨some ⟨some "1.0.0"⟩, some ⟨some "1.1.0"⟩, true, true, true, false⟩,
          "started", none, none⟩,
         ⟨latestVersionString ⟨some ⟨some "1.0.0"⟩, some ⟨some "1.1.0"⟩, true, true, true, false⟩,
          "failed", some "health_check", some "rolled_back"⟩],
        [.backupApp, .stopApp, .downloadApp, .startApp, .healthProbe,
         .stopApp, .restoreBackup, .startApp]⟩ ∧
    List.countP isHealthRollbackRecord
      [⟨latestVersionString ⟨some ⟨some "1.0.0"⟩, some ⟨some "1.1.0"⟩, true, true, true, false⟩,
        "started", none, none⟩,
       ⟨latestVersionString ⟨some ⟨some "1.0.0"⟩, some ⟨some "1.1.0"⟩, true, true, true, false⟩,
        "failed", some "health_check", some "rolled_back"⟩] = 1 :=
  c3_health_failure_rolls_back
    ⟨some ⟨some "1.0.0"⟩, some ⟨some "1.1.0"⟩, true, true, true, false⟩
    (by decide) rfl rfl rfl rfl

/-- C4 evaluation at the failing input: with a genuine backup snapshot
of creation time 100 and the leftover staging directory temp_download
of creation time 200 both inside the backup directory, restore with no
argument copies temp_download — not a backup snapshot — into the app
path, although the snapshot 1.0.0_20250101000000 exists. -/
theorem c4_restore_copies_staging_leftover :
    restore_from_backup
      [⟨"1.0.0_20250101000000", 100⟩, ⟨"temp_download", 200⟩] none
      = ⟨true, some "temp_download"⟩ ∧
    isBackupSnapshotName "temp_download" = false ∧
    isBackupSnapshotName "1.0.0_20250101000000" = true := by
  refine ⟨by decide, by decide, by decide⟩

/-- C5: when an update is available but the backup step fails, the cycle
emits a started record then a failed record with stage backup, returns
failure, never stops the running application, and performs no action
that removes or overwrites the app directory. -/
theorem c5_backup_failure_aborts_untouched (env : OrchEnv)
    (hav : check_for_updates env.current env.latest = .ok true)
    (hb : env.backupOk = false) :
    update_if_available env = .ok ⟨false,
      [⟨latestVersionString env, "started", none, none⟩,
       ⟨latestVersionString env, "failed", some "backup", none⟩],
      [.backupApp]⟩ ∧
    OrchAction.stopApp ∉ [OrchAction.backupApp] ∧
    OrchAction.downloadApp ∉ [OrchAction.backupApp] ∧
    OrchAction.restoreBackup ∉ [OrchAction.backupApp] := by
  refine ⟨?_, by decide, by decide, by decide⟩
  unfold update_if_available
  rw [hav]
  simp [hb]

/-- Witness for C5: versions 1.0.0 and 1.1.0 with a failing backup. -/
theorem c5_backup_failure_aborts_untouched_witness :
    update_if_available ⟨some ⟨some "1.0.0"⟩, some ⟨some "1.1.0"⟩, false, true, true, true⟩
      = .ok ⟨false,
        [⟨latestVersionString ⟨some ⟨some "1.0.0"⟩, some ⟨some "1.1.0"⟩, false, true, true, true⟩,
          "started", none, none⟩,
         ⟨latestVersionString ⟨some ⟨some "1.0.0"⟩, some ⟨some "1.1.0"⟩, false, true, true, true⟩,
          "failed", some "backup", none⟩],
        [.backupApp]⟩ ∧
    OrchAction.stopApp ∉ [OrchAction.backupApp] ∧
    OrchAction.downloadApp ∉ [OrchAction.backupApp] ∧
    OrchAction.restoreBackup ∉ [OrchAction.backupApp] :=
  c5_backup_failure_aborts_untouched
    ⟨some ⟨some "1.0.0"⟩, some ⟨some "1.1.0"⟩, false, true, true, true⟩
    (by decide) rfl

/-- C6 evaluation at the failing input: a version string with a
non-integer component makes `check_for_updates` raise an uncaught
ValueError instead of returning a boolean, and the exception propagates
out of `update_if_available` as well. -/
theorem c6_nonint_component_escapes :
    check_for_updates (some ⟨some "1.0.beta"⟩) (some ⟨some "1.1.0"⟩)
      = .error "ValueError" ∧
    update_if_available ⟨some ⟨some "1.0.beta"⟩, some ⟨some "1.1.0"⟩, true, true, true, true⟩
      = .error "ValueError" := by
  refine ⟨by decide, by decide⟩

/-- C7 counterexample: the claim reads the comparison as
compare(current, latest), and at current 1.10.0, latest 1.9.9 the code
reports no update (current is numerically newer), not update available
as the claim states. -/
theorem c7_counterexample_1_10_0_vs_1_9_9 :
    ¬ check_for_updates (some ⟨some "1.10.0"⟩) (some ⟨some "1.9.9"⟩) = .ok true := by
  decide

/-- C7 amended: compare(1.2.3, 1.2.4) reports update available;
compare(1.2.3, 1.2) reports no update; compare(1.9.9, 1.10.0) reports
update available (numeric, not lexicographic, comparison of the second
component); compare(None, 0.0.1) reports update available; and for
every dotted-integer version string v, compare(v, v) reports no
update. -/
theorem c7_amended_compare_vectors :
    check_for_updates (some ⟨some "1.2.3"⟩) (some ⟨some "1.2.4"⟩) = .ok true ∧
    check_for_updates (some ⟨some "1.2.3"⟩) (some ⟨some "1.2"⟩) = .ok false ∧
    check_for_updates (some ⟨some "1.9.9"⟩) (some ⟨some "1.10.0"⟩) = .ok true ∧
    check_for_updates none (some ⟨some "0.0.1"⟩) = .ok true ∧
    (∀ (v : String) (p : List Int), parseParts v = some p →
      check_for_updates (some ⟨some v⟩) (some ⟨some v⟩) = .ok false) := by
  refine ⟨by decide, by decide, by decide, by decide, fun v p hp => ?_⟩
  show (match parseParts (getVersionField ⟨some v⟩), parseParts (getVersionField ⟨some v⟩) with
    | some cp, some lp => Except.ok (cmpParts cp lp)
    | _, _ => Except.error "ValueError") = Except.ok false
  have hv : parseParts (getVersionField ⟨some v⟩) = some p := hp
  rw [hv]
  show Except.ok (cmpParts p p) = Except.ok false
  rw [cmpParts_self]

/-- Witness for C7 at v = 1.2.3. -/
theorem c7_amended_compare_vectors_witness :
    check_for_updates (some ⟨some "1.2.3"⟩) (some ⟨some "1.2.3"⟩) = .ok false :=
  c7_amended_compare_vectors.2.2.2.2 "1.2.3" [1, 2, 3] (by decide)

/-- C8: in every iteration of the continuous loop whose body raises
only Exception-class faults, the fault is caught within the iteration
(and the sleep after the handler executes), and the loop reaches every
later iteration — it never terminates because of such an exception. -/
theorem c8_loop_survives_exceptions (schedule : Nat → Except PyExc Unit)
    (h : ∀ n, schedule n ≠ .error .keyboardInterrupt) :
    (∀ msg, loopIteration (.error (.exception msg)) = .ok true) ∧
    (∀ n, loopRuns schedule n = true) := by
  refine ⟨fun msg => rfl, fun n => ?_⟩
  induction n with
  | zero => rfl
  | succ k ih =>
    unfold loopRuns
    rw [ih]
    cases hsk : schedule k with
    | ok u => cases u; simp [loopIteration]
    | error e =>
      cases e with
      | exception m => simp [loopIteration]
      | keyboardInterrupt => exact absurd hsk (h k)

/-- Witness for C8: a fault injected in iteration 0 still lets the loop
reach iteration 2. -/
theorem c8_loop_survives_exceptions_witness :
    (∀ msg, loopIteration (.error (.exception msg)) = .ok true) ∧
    (∀ n, loopRuns (fun n => if n = 0 then .error (.exception "fault") else .ok ()) n = true) :=
  c8_loop_survives_exceptions
    (fun n => if n = 0 then .error (.exception "fault") else .ok ())
    (fun n => by by_cases h : n = 0 <;> simp [h])

/-- C9: restore with no backup id and an empty backup directory listing
returns false, and the app directory is neither removed nor
overwritten. -/
theorem c9_restore_empty_listing :
    restore_from_backup [] none = ⟨false, none⟩ := by
  decide

/-- C10: whenever the top-level listing yields an empty list — a failed
request and a genuinely empty remote directory both do, and the two
are indistinguishable at this interface — `download_update` returns
false before creating the staging directory and without touching the
app directory. -/
theorem c10_empty_listing_aborts (r : Option (List RTree))
    (h : _list_directory_contents r = []) :
    download_update r = ⟨false, false, false⟩ ∧
    _list_directory_contents none = _list_directory_contents (some []) := by
  refine ⟨?_, rfl⟩
  simp [download_update, h]

/-- Witness for C10 at a failed listing request. -/
theorem c10_empty_listing_aborts_witness :
    download_update none = ⟨false, false, false⟩ ∧
    _list_directory_contents none = _list_directory_contents (some []) :=
  c10_empty_listing_aborts none rfl
